import Mathlib

/-!
Verification of the `axvisor_api` repository: a shallow embedding of the
`axvisor_api_proc` attribute expansion functions (`api_def`, `api_impl`,
`axvisor_api_crate`, `axvisor_api_namespace`, `assert_empty_attr`) from
`axvisor_api_proc/src/lib.rs`, and of the helper functions `time_to_ticks`
(`src/time.rs`) and `current_vm_vcpu_num` / `current_vm_active_vcpus`
(`src/vmm.rs`).

Token streams are modelled as lists of token trees, mirroring the
`proc_macro2::TokenStream` structure: identifiers, punctuation, literals and
delimited groups. Every token carries a span identifier (a natural number);
`quote!` attaches the call-site span, `quote_spanned!` attaches the span given
to it. On stable Rust, `syn::spanned::Spanned` for a token stream resolves to
the span of the first token (span joining is unavailable), with the call-site
span as the fallback for an empty stream; `streamSpan` models exactly that.

The expansion functions are pure: the source constructs identifiers with
`Ident::new` from fixed strings and fixed spans and keeps no global state.
The dependency-graph query `proc_macro_crate::crate_name("axvisor_api")` is an
input of the model (`Except Unit FoundCrate`), since it reads the build
environment, not the token stream.
-/

/-- Group delimiter kinds of `proc_macro2::Delimiter` used by the macros. -/
inductive Delim where
  | paren
  | bracket
  | brace
deriving DecidableEq

/-- A token tree, mirroring `proc_macro2::TokenTree`: an identifier, a
punctuation string, a literal, or a delimited group, each with a span id. -/
inductive Tok where
  | ident (s : String) (sp : Nat)
  | punct (s : String) (sp : Nat)
  | lit (s : String) (sp : Nat)
  | group (d : Delim) (ts : List Tok) (sp : Nat)

/-- The call-site span id, the span `Span::call_site()` used by `quote!` and
by every `Ident::new(_, Span::call_site())` in the source. -/
def cs : Nat := 0

/-- The span of a single token tree. -/
def Tok.sp : Tok → Nat
  | .ident _ s => s
  | .punct _ s => s
  | .lit _ s => s
  | .group _ _ s => s

/-- Span of a token stream, modelling `TokenStream::span()` via
`syn::spanned::Spanned` on stable Rust: the span of the first token, or the
call-site span for an empty stream. -/
def streamSpan : List Tok → Nat
  | [] => cs
  | t :: _ => t.sp

/-- Token stream of `compile_error!("msg")` with every token carrying the
span `s`, as produced by `quote_spanned! { s => compile_error!("msg") }`. -/
def compileErrorInvocation (msg : String) (s : Nat) : List Tok :=
  [Tok.ident "compile_error" s, Tok.punct "!" s,
   Tok.group Delim.paren [Tok.lit msg s] s]

/-- The diagnostic text of `assert_empty_attr` in
`axvisor_api_proc/src/lib.rs` line 94. -/
def emptyAttrMsg : String := "This attribute does not accept any arguments"

/-- The diagnostic text of `axvisor_api_crate` in
`axvisor_api_proc/src/lib.rs` line 76. -/
def crateNotFoundMsg : String := "`axvisor_api` crate not found"

/-- Result type of `proc_macro_crate::crate_name`: the defining crate is the
one being expanded, or is imported under a (possibly renamed) name. -/
inductive FoundCrate where
  | itself
  | name (s : String)
deriving DecidableEq

/-- Embedding of `axvisor_api_crate` (`axvisor_api_proc/src/lib.rs` lines
69-78). Given the outcome of `crate_name("axvisor_api")`: inside the crate
itself the reference is `crate`; when found under name `n` the reference is
the single identifier `n` with call-site span; when the crate is not found
the output is the fixed `compile_error!` invocation. -/
def axvisor_api_crate : Except Unit FoundCrate → List Tok
  | .ok .itself => [Tok.ident "crate" cs]
  | .ok (.name n) => [Tok.ident n cs]
  | .error _ => compileErrorInvocation crateNotFoundMsg cs

/-- Embedding of `axvisor_api_namespace` (`axvisor_api_proc/src/lib.rs`
lines 84-87): `Ident::new("AxVisorApi", Span::call_site())`. -/
def axvisor_api_namespace : Tok := Tok.ident "AxVisorApi" cs

/-- Arguments of the generated `def_interface` attribute:
`(gen_caller, namespace = AxVisorApi)`. -/
def defInterfaceArgs : List Tok :=
  [Tok.ident "gen_caller" cs, Tok.punct "," cs,
   Tok.ident "namespace" cs, Tok.punct "=" cs, axvisor_api_namespace]

/-- Arguments of the generated `impl_interface` attribute:
`(namespace = AxVisorApi)`. -/
def implInterfaceArgs : List Tok :=
  [Tok.ident "namespace" cs, Tok.punct "=" cs, axvisor_api_namespace]

/-- Token stream of the generated attribute
`#[<path>::__priv::crate_interface::<entry>(<args>)]`, with all tokens
produced by `quote!` carrying the call-site span. -/
def mkAnnotation (path : List Tok) (entry : String) (args : List Tok) : List Tok :=
  [Tok.punct "#" cs,
   Tok.group Delim.bracket
     (path ++
       [Tok.punct "::" cs, Tok.ident "__priv" cs,
        Tok.punct "::" cs, Tok.ident "crate_interface" cs,
        Tok.punct "::" cs, Tok.ident entry cs,
        Tok.group Delim.paren args cs]) cs]

/-- The full attribute emitted by `api_def` for a given crate resolution. -/
def def_annotation (r : Except Unit FoundCrate) : List Tok :=
  mkAnnotation (axvisor_api_crate r) "def_interface" defInterfaceArgs

/-- The full attribute emitted by `api_impl` for a given crate resolution. -/
def impl_annotation (r : Except Unit FoundCrate) : List Tok :=
  mkAnnotation (axvisor_api_crate r) "impl_interface" implInterfaceArgs

/-- Embedding of `api_def` (`axvisor_api_proc/src/lib.rs` lines 142-155).
`assert_empty_attr` runs first: a non-empty attribute stream returns only the
`compile_error!` invocation spanned at the attribute stream span. Otherwise
the item is parsed with `parse_macro_input!(input as TokenStream)`, which
accepts every token stream unchanged, and the output is the generated
attribute followed by the original item. The target shape is never
inspected. -/
def api_def (r : Except Unit FoundCrate) (attr input : List Tok) : List Tok :=
  if !attr.isEmpty then
    compileErrorInvocation emptyAttrMsg (streamSpan attr)
  else
    def_annotation r ++ input

/-- Embedding of `api_impl` (`axvisor_api_proc/src/lib.rs` lines 197-210),
identical to `api_def` except for the attribute entry point
(`impl_interface`) and the absence of `gen_caller`. -/
def api_impl (r : Except Unit FoundCrate) (attr input : List Tok) : List Tok :=
  if !attr.isEmpty then
    compileErrorInvocation emptyAttrMsg (streamSpan attr)
  else
    impl_annotation r ++ input

/-- Whether an identifier token with text `s` occurs at the top level of a
token stream (not inside any group). -/
def containsIdentTop (s : String) : List Tok → Bool
  | [] => false
  | .ident t _ :: rest => t == s || containsIdentTop s rest
  | _ :: rest => containsIdentTop s rest

/-- The argument list of the trailing parenthesis group of a token stream,
matching the `<entry>(<args>)` tail of a generated attribute. -/
def parenArgs : List Tok → Option (List Tok)
  | [] => none
  | [Tok.group Delim.paren args _] => some args
  | _ :: rest => parenArgs rest

/-- The token following `namespace =` in an attribute argument list. -/
def namespaceArg : List Tok → Option Tok
  | Tok.ident "namespace" _ :: Tok.punct "=" _ :: t :: _ => some t
  | _ :: rest => namespaceArg rest
  | [] => none

/-- The namespace token carried by an expansion output of the form
`#[...(...)] item`: the token after `namespace =` inside the argument list of
the leading attribute. -/
def annotationNamespace : List Tok → Option Tok
  | Tok.punct "#" _ :: Tok.group Delim.bracket inner _ :: _ =>
      (parenArgs inner).bind namespaceArg
  | _ => none

/-- Two successive runs of `api_def` on the identical input and the identical
crate-resolution outcome. -/
def expandTwice_def (r : Except Unit FoundCrate) (attr input : List Tok) :
    List Tok × List Tok :=
  (api_def r attr input, api_def r attr input)

/-- Two successive runs of `api_impl` on the identical input and the
identical crate-resolution outcome. -/
def expandTwice_impl (r : Except Unit FoundCrate) (attr input : List Tok) :
    List Tok × List Tok :=
  (api_impl r attr input, api_impl r attr input)

/-- A concrete non-trait, non-impl item: the token stream of `fn foo() {}`. -/
def fnItem : List Tok :=
  [Tok.ident "fn" 3, Tok.ident "foo" 4,
   Tok.group Delim.paren [] 5, Tok.group Delim.brace [] 6]

/-- Nanoseconds per second, `NANOS_PER_SEC` of `core::time`. -/
def NANOS_PER_SEC : Nat := 1000000000

/-- Embedding of `core::time::Duration` (= `TimeValue` of `src/time.rs`):
a `u64` second count and a sub-second nanosecond count below one second. -/
structure Duration where
  secs : Nat
  nanos : Nat
  secs_lt : secs < 2 ^ 64
  nanos_lt : nanos < NANOS_PER_SEC

/-- The mathematical total nanosecond count of a duration. -/
def Duration.totalNanos (d : Duration) : Nat :=
  d.secs * NANOS_PER_SEC + d.nanos

/-- Embedding of `Duration::as_nanos`: the total nanosecond count computed in
`u128` arithmetic, hence reduced modulo `2 ^ 128`. -/
def Duration.as_nanos (d : Duration) : Nat :=
  (d.secs * NANOS_PER_SEC + d.nanos) % 2 ^ 128

/-- Embedding of `time_to_ticks` (`src/time.rs` lines 199-201):
`nanos_to_ticks(time.as_nanos() as Nanos)`. The bound implementation of
`nanos_to_ticks` is a parameter; the `as Nanos` cast to `u64` reduces the
`u128` value modulo `2 ^ 64`. -/
def time_to_ticks (nanos_to_ticks : Nat → Nat) (time : Duration) : Nat :=
  nanos_to_ticks (time.as_nanos % 2 ^ 64)

/-- Outcome of a Rust expression that may panic. -/
inductive PanicOr (α : Type) where
  | panics
  | ok (a : α)
deriving DecidableEq

/-- Embedding of `Option::unwrap`: the value on `Some`, a panic on `None`. -/
def Option.unwrapP : Option α → PanicOr α
  | some a => PanicOr.ok a
  | none => PanicOr.panics

/-- A bound implementation of the `VmmIf` trait of `src/vmm.rs`: the three
query operations used by the helper functions. -/
structure VmmIf where
  current_vm_id : Nat
  vcpu_num : Nat → Option Nat
  active_vcpus : Nat → Option Nat

/-- Embedding of `current_vm_vcpu_num` (`src/vmm.rs` lines 164-166):
`vcpu_num(current_vm_id()).unwrap()`. -/
def current_vm_vcpu_num (impl : VmmIf) : PanicOr Nat :=
  (impl.vcpu_num impl.current_vm_id).unwrapP

/-- Embedding of `current_vm_active_vcpus` (`src/vmm.rs` lines 181-183):
`active_vcpus(current_vm_id()).unwrap()`. -/
def current_vm_active_vcpus (impl : VmmIf) : PanicOr Nat :=
  (impl.active_vcpus impl.current_vm_id).unwrapP

/-- C1: for every trait declaration processed with an empty attribute
argument list, `api_def` emits exactly the original declaration token stream
unchanged, preceded by the single attribute
`#[<resolved-path>::__priv::crate_interface::def_interface(gen_caller,
namespace = AxVisorApi)]`, and emits nothing else itself; the `gen_caller`
option inside the attribute delegates per-operation caller generation to the
annotated underlying primitive. -/
theorem api_def_emits_annotation_then_input
    (r : Except Unit FoundCrate) (input : List Tok) :
    api_def r [] input =
      Tok.punct "#" cs ::
      Tok.group Delim.bracket
        (axvisor_api_crate r ++
          [Tok.punct "::" cs, Tok.ident "__priv" cs,
           Tok.punct "::" cs, Tok.ident "crate_interface" cs,
           Tok.punct "::" cs, Tok.ident "def_interface" cs,
           Tok.group Delim.paren
             [Tok.ident "gen_caller" cs, Tok.punct "," cs,
              Tok.ident "namespace" cs, Tok.punct "=" cs,
              Tok.ident "AxVisorApi" cs] cs]) cs ::
      input := rfl

/-- C2: for every impl block processed with an empty attribute argument list,
`api_impl` emits exactly the original impl block unchanged, preceded by the
single attribute
`#[<resolved-path>::__priv::crate_interface::impl_interface(namespace =
AxVisorApi)]`, annotating the binding for export by the underlying
primitive. -/
theorem api_impl_emits_annotation_then_input
    (r : Except Unit FoundCrate) (input : List Tok) :
    api_impl r [] input =
      Tok.punct "#" cs ::
      Tok.group Delim.bracket
        (axvisor_api_crate r ++
          [Tok.punct "::" cs, Tok.ident "__priv" cs,
           Tok.punct "::" cs, Tok.ident "crate_interface" cs,
           Tok.punct "::" cs, Tok.ident "impl_interface" cs,
           Tok.group Delim.paren
             [Tok.ident "namespace" cs, Tok.punct "=" cs,
              Tok.ident "AxVisorApi" cs] cs]) cs ::
      input := rfl

/-- C5: the reference to the defining library is `crate` when the
dependency-graph query reports expansion inside the defining library itself,
and the resolved (possibly renamed) import name as a single identifier when
the query reports the library present under that name. -/
theorem crate_path_resolution (n : String) :
    axvisor_api_crate (Except.ok FoundCrate.itself) = [Tok.ident "crate" cs] ∧
    axvisor_api_crate (Except.ok (FoundCrate.name n)) = [Tok.ident n cs] :=
  ⟨rfl, rfl⟩

/-- C7: when the defining library cannot be located in the dependency graph,
the output of the path resolver is one fixed `compile_error!` diagnostic
whose message identifies the missing dependency; no identifier referencing
the library (and no fallback guess such as `axvisor_api` or `crate`) appears
in the output. -/
theorem crate_not_found_fixed_diagnostic :
    axvisor_api_crate (Except.error ()) =
      [Tok.ident "compile_error" cs, Tok.punct "!" cs,
       Tok.group Delim.paren [Tok.lit "`axvisor_api` crate not found" cs] cs] ∧
    containsIdentTop "axvisor_api" (axvisor_api_crate (Except.error ())) = false ∧
    containsIdentTop "crate" (axvisor_api_crate (Except.error ())) = false :=
  ⟨rfl, rfl, rfl⟩

/-- C8: expansion is deterministic: for every declaration or binding token
stream, every attribute stream, and every fixed outcome of the
dependency-name resolution, two runs of `api_def` (respectively `api_impl`)
on the identical input produce identical output token streams, and in
particular carry the identical namespace token. The source keeps no state
between expansions and builds every identifier from a fixed string with a
fixed span, so the embedding as a pure function is faithful. -/
theorem expansion_deterministic
    (r : Except Unit FoundCrate) (attr input : List Tok) :
    (expandTwice_def r attr input).1 = (expandTwice_def r attr input).2 ∧
    (expandTwice_impl r attr input).1 = (expandTwice_impl r attr input).2 ∧
    annotationNamespace (expandTwice_def r attr input).1 =
      annotationNamespace (expandTwice_def r attr input).2 :=
  ⟨rfl, rfl, rfl⟩

/-- C3: for every non-empty attribute-argument token stream supplied to
either `api_def` or `api_impl`, expansion produces only the `compile_error!`
diagnostic spanned at the span of the supplied tokens, and the annotated item
is not re-emitted: the output is exactly the diagnostic invocation.
Moreover, when every supplied token carries one span `s`, the stream span
used for the diagnostic is `s`. -/
theorem nonempty_attr_compile_error
    (r : Except Unit FoundCrate) (attr input : List Tok) (h : attr ≠ []) :
    api_def r attr input = compileErrorInvocation emptyAttrMsg (streamSpan attr) ∧
    api_impl r attr input = compileErrorInvocation emptyAttrMsg (streamSpan attr) ∧
    ∀ s : Nat, (∀ t ∈ attr, t.sp = s) → streamSpan attr = s := by
  cases attr with
  | nil => exact absurd rfl h
  | cons t rest =>
    refine ⟨rfl, rfl, fun s hs => ?_⟩
    exact hs t (List.mem_cons_self t rest)

/-- Witness for C3 at a concrete one-token attribute stream with span 7. -/
theorem nonempty_attr_compile_error_witness :
    api_def (Except.ok FoundCrate.itself) [Tok.ident "foo" 7] [Tok.ident "x" 1] =
      compileErrorInvocation emptyAttrMsg 7 :=
  (nonempty_attr_compile_error (Except.ok FoundCrate.itself)
    [Tok.ident "foo" 7] [Tok.ident "x" 1] (List.cons_ne_nil _ _)).1

/-- C4: there is exactly one constant namespace identifier, `AxVisorApi`:
`axvisor_api_namespace` is the constant identifier token `AxVisorApi`, and
for every crate resolution and every item, the annotation emitted by
`api_def` and the annotation emitted by `api_impl` both carry exactly this
namespace token after `namespace =`, so a declaration and any binding of it
always agree on the namespace. -/
theorem namespace_constant_and_shared
    (r : Except Unit FoundCrate) (input : List Tok) :
    axvisor_api_namespace = Tok.ident "AxVisorApi" cs ∧
    annotationNamespace (api_def r [] input) = some axvisor_api_namespace ∧
    annotationNamespace (api_impl r [] input) = some axvisor_api_namespace := by
  refine ⟨rfl, ?_, ?_⟩ <;>
    rcases r with u | fc
  · rfl
  · cases fc <;> rfl
  · rfl
  · cases fc <;> rfl

/-- C6 (amended): `api_def` and `api_impl` perform no target-shape check of
their own: applied with an empty argument list to any item, including items
that are not a trait definition (respectively not an impl block), they still
emit the annotated original item unchanged and add no `compile_error!`
diagnostic at the top level of the output; shape misuse is left to the
expansion of the delegated `crate_interface` attribute downstream. -/
theorem no_target_shape_check
    (r : Except Unit FoundCrate) (input : List Tok) :
    (containsIdentTop "trait" input = false →
      api_def r [] input = def_annotation r ++ input) ∧
    (containsIdentTop "impl" input = false →
      api_impl r [] input = impl_annotation r ++ input) ∧
    containsIdentTop "compile_error" (api_def r [] input) =
      containsIdentTop "compile_error" input ∧
    containsIdentTop "compile_error" (api_impl r [] input) =
      containsIdentTop "compile_error" input :=
  ⟨fun _ => rfl, fun _ => rfl, rfl, rfl⟩

/-- Witness for C6 (amended) at the concrete non-trait item `fn foo() {}`. -/
theorem no_target_shape_check_witness :
    api_def (Except.ok FoundCrate.itself) [] fnItem =
      def_annotation (Except.ok FoundCrate.itself) ++ fnItem :=
  (no_target_shape_check (Except.ok FoundCrate.itself) fnItem).1 rfl

/-- C6 counterexample: the item `fn foo() {}` is not a trait definition, yet
`api_def` with an empty argument list re-emits it annotated (six top-level
tokens: the attribute followed by the four item tokens), emits no
`compile_error!` identifier at the top level, and its output is not the
stray-argument diagnostic stream, refuting that a wrong-shaped target fails
through the same diagnostic channel with no code generated. -/
theorem shape_misuse_counterexample :
    containsIdentTop "trait" fnItem = false ∧
    api_def (Except.ok FoundCrate.itself) [] fnItem =
      def_annotation (Except.ok FoundCrate.itself) ++ fnItem ∧
    (api_def (Except.ok FoundCrate.itself) [] fnItem).length = 6 ∧
    containsIdentTop "compile_error"
      (api_def (Except.ok FoundCrate.itself) [] fnItem) = false ∧
    api_def (Except.ok FoundCrate.itself) [] fnItem ≠
      compileErrorInvocation emptyAttrMsg (streamSpan ([] : List Tok)) := by
  refine ⟨rfl, rfl, rfl, rfl, fun h => ?_⟩
  have hlen := congrArg List.length h
  exact absurd hlen (by decide)

/-- C9: `time_to_ticks` computes the total nanoseconds of its `TimeValue`
argument as a 128-bit value (exactly, since the total count always fits in
128 bits) and casts it to the 64-bit `Nanos` type before calling
`nanos_to_ticks`: the value passed to `nanos_to_ticks` is the total
nanosecond count reduced modulo `2 ^ 64`, hence exact whenever the total
count is below `2 ^ 64`. -/
theorem time_to_ticks_truncation (f : Nat → Nat) (d : Duration) :
    d.as_nanos = d.totalNanos ∧
    time_to_ticks f d = f (d.totalNanos % 2 ^ 64) ∧
    (d.totalNanos < 2 ^ 64 → time_to_ticks f d = f d.totalNanos) := by
  have hs := d.secs_lt
  have hn := d.nanos_lt
  have h1 : d.totalNanos < 2 ^ 64 * NANOS_PER_SEC := by
    unfold Duration.totalNanos
    calc d.secs * NANOS_PER_SEC + d.nanos
        < d.secs * NANOS_PER_SEC + NANOS_PER_SEC := by omega
      _ = (d.secs + 1) * NANOS_PER_SEC := by ring
      _ ≤ 2 ^ 64 * NANOS_PER_SEC := Nat.mul_le_mul_right _ (by omega)
  have h2 : d.totalNanos < 2 ^ 128 := by
    refine lt_of_lt_of_le h1 ?_
    norm_num [NANOS_PER_SEC]
  have hA : d.as_nanos = d.totalNanos := by
    unfold Duration.as_nanos
    exact Nat.mod_eq_of_lt h2
  refine ⟨hA, ?_, ?_⟩
  · unfold time_to_ticks
    rw [hA]
  · intro hlt
    unfold time_to_ticks
    rw [hA, Nat.mod_eq_of_lt hlt]

/-- Witness for C9 at the concrete duration of 1 second and 2 nanoseconds
with the identity tick conversion. -/
theorem time_to_ticks_truncation_witness :
    time_to_ticks (fun n => n) (Duration.mk 1 2 (by decide) (by decide)) =
      1000000002 := by
  have h := time_to_ticks_truncation (fun n => n)
    (Duration.mk 1 2 (by decide) (by decide))
  have h3 := h.2.2 (by decide)
  simpa [Duration.totalNanos, NANOS_PER_SEC] using h3

/-- C10: `current_vm_vcpu_num` and `current_vm_active_vcpus` unwrap the
`Option` returned by `vcpu_num(current_vm_id())` and
`active_vcpus(current_vm_id())` respectively: for every bound
implementation, if the underlying query returns `Some v` for the current VM
id the helper returns `v`, and if it returns `None` the helper panics. -/
theorem current_vm_helpers_unwrap (impl : VmmIf) (v : Nat) :
    (impl.vcpu_num impl.current_vm_id = some v →
      current_vm_vcpu_num impl = PanicOr.ok v) ∧
    (impl.vcpu_num impl.current_vm_id = none →
      current_vm_vcpu_num impl = PanicOr.panics) ∧
    (impl.active_vcpus impl.current_vm_id = some v →
      current_vm_active_vcpus impl = PanicOr.ok v) ∧
    (impl.active_vcpus impl.current_vm_id = none →
      current_vm_active_vcpus impl = PanicOr.panics) := by
  refine ⟨fun h => ?_, fun h => ?_, fun h => ?_, fun h => ?_⟩ <;>
    simp [current_vm_vcpu_num, current_vm_active_vcpus, h, Option.unwrapP]

/-- Witness for C10 at two concrete implementations: one whose queries
return values for VM 0, and one whose queries return none. -/
theorem current_vm_helpers_unwrap_witness :
    current_vm_vcpu_num (VmmIf.mk 0 (fun _ => some 4) (fun _ => some 1)) =
      PanicOr.ok 4 ∧
    current_vm_vcpu_num (VmmIf.mk 0 (fun _ => none) (fun _ => none)) =
      PanicOr.panics :=
  ⟨(current_vm_helpers_unwrap (VmmIf.mk 0 (fun _ => some 4) (fun _ => some 1)) 4).1 rfl,
   (current_vm_helpers_unwrap (VmmIf.mk 0 (fun _ => none) (fun _ => none)) 0).2.1 rfl⟩
